import Mathlib

/-!
Verification of the intrusive_ptr / weak_intrusive_ptr handle library.

The handle logic is translated from `src/intrusive_ptr.hpp` and
`src/weak_intrusive_ptr.hpp`.  The counting primitives
(`intrusive_ptr_add_ref`, `intrusive_ptr_release`,
`intrusive_ptr_add_weak_ref`, `intrusive_ptr_release_weak`,
`intrusive_ptr_upgrade_weak`) are declared in `ref_counted.hpp`, which is
not part of the available sources; they are modelled from the spec's
exact contracts (spec section 4.3).

Pointers are modelled as `Option Addr` (with `none` as the null pointer)
and the managed objects live in an explicit heap, an association list
from addresses to counted-object records.  Every operation that may call
a counting primitive takes the heap and returns the updated heap.
-/

set_option autoImplicit false

namespace IntrusivePtrModel

/-- Addresses of managed objects. -/
abbrev Addr := Nat

/-- A raw pointer: an address or null. -/
abbrev Ptr := Option Addr

/-- Runtime type identifiers, used to model `dynamic_cast`. -/
abbrev TypeId := Nat

/-- The managed counted object: the two counts, plus observation fields
recording finalization and storage reclamation (how many times each
effect ran), and the list of type ids a `dynamic_cast` of this object
succeeds for. -/
structure RefCounted where
  strong_count : Nat
  weak_count : Nat
  finalized : Bool
  finalizer_runs : Nat
  reclaimed : Bool
  reclaim_runs : Nat
  compatible_with : List TypeId
deriving DecidableEq, Repr

/-- The heap: an association list from addresses to counted objects. -/
abbrev Heap := List (Addr × RefCounted)

/-- Look up the object stored at an address. -/
def getObj : Heap → Addr → Option RefCounted
  | [], _ => none
  | (b, o) :: rest, a => if a = b then some o else getObj rest a

/-- Apply a function to the object stored at an address (no-op when the
address is absent). -/
def modifyObj : Heap → Addr → (RefCounted → RefCounted) → Heap
  | [], _, _ => []
  | (b, o) :: rest, a, f =>
      if a = b then (b, f o) :: modifyObj rest a f
      else (b, o) :: modifyObj rest a f

/-- Modelled from the spec: the one-time finalization effect that
`release_strong_ref` triggers on the zero transition ("runs the object's
finalizer exactly once", spec 4.3).  `ref_counted.hpp` is not under
`src/`. -/
def runFinalizer (o : RefCounted) : RefCounted :=
  { o with finalized := true, finalizer_runs := o.finalizer_runs + 1 }

/-- Modelled from the spec: the one-time storage reclamation effect that
`release_weak_ref` triggers ("if the result is 0 and the object has
already been finalized, reclaims storage", spec 4.3).  `ref_counted.hpp`
is not under `src/`. -/
def reclaimStorage (o : RefCounted) : RefCounted :=
  { o with reclaimed := true, reclaim_runs := o.reclaim_runs + 1 }

/-- Modelled from the spec: `add_strong_ref(obj)` "increments
`strong_count`; no precondition on current value" (spec 4.3).
`ref_counted.hpp` is not under `src/`. -/
def intrusive_ptr_add_ref (h : Heap) (a : Addr) : Heap :=
  modifyObj h a fun o => { o with strong_count := o.strong_count + 1 }

/-- Modelled from the spec: `release_strong_ref(obj)` "decrements
`strong_count`; if the result is 0, runs the object's finalizer exactly
once", as one atomic decrement-and-test (spec 4.3).  `ref_counted.hpp`
is not under `src/`. -/
def intrusive_ptr_release (h : Heap) (a : Addr) : Heap :=
  modifyObj h a fun o =>
    let o2 := { o with strong_count := o.strong_count - 1 }
    if o2.strong_count = 0 then runFinalizer o2 else o2

/-- Modelled from the spec: `add_weak_ref(obj)` "increments `weak_count`"
(spec 4.3).  `ref_counted.hpp` is not under `src/`. -/
def intrusive_ptr_add_weak_ref (h : Heap) (a : Addr) : Heap :=
  modifyObj h a fun o => { o with weak_count := o.weak_count + 1 }

/-- Modelled from the spec: `release_weak_ref(obj)` "decrements
`weak_count`; if the result is 0 and the object has already been
finalized, reclaims storage" (spec 4.3).  `ref_counted.hpp` is not under
`src/`. -/
def intrusive_ptr_release_weak (h : Heap) (a : Addr) : Heap :=
  modifyObj h a fun o =>
    let o2 := { o with weak_count := o.weak_count - 1 }
    if o2.weak_count = 0 ∧ o2.finalized = true then reclaimStorage o2 else o2

/-- Modelled from the spec: `try_upgrade_weak(obj) -> bool` "atomically
attempts to increment `strong_count` conditioned on `strong_count > 0`
at the moment of increment"; on failure no reference is adopted
(spec 4.2/4.3).  `ref_counted.hpp` is not under `src/`. -/
def intrusive_ptr_upgrade_weak (h : Heap) (a : Addr) : Bool × Heap :=
  match getObj h a with
  | some o =>
      if 0 < o.strong_count then
        (true, modifyObj h a fun o2 => { o2 with strong_count := o2.strong_count + 1 })
      else (false, h)
  | none => (false, h)

/-- The strong handle `intrusive_ptr<T>`: holds the stored pointer
`ptr_` (src/intrusive_ptr.hpp, line 112). -/
structure intrusive_ptr where
  ptr_ : Ptr
deriving DecidableEq, Repr

/-- `intrusive_ptr::set_ptr(raw_ptr, add_ref)` (src/intrusive_ptr.hpp
105-110): stores the pointer and, when it is non-null and `add_ref`
holds, increments the strong count. -/
def intrusive_ptr.set_ptr (h : Heap) (raw_ptr : Ptr) (add_ref : Bool) :
    intrusive_ptr × Heap :=
  (⟨raw_ptr⟩,
    match raw_ptr with
    | some a => if add_ref then intrusive_ptr_add_ref h a else h
    | none => h)

/-- The constructor `intrusive_ptr(pointer raw_ptr, bool add_ref = true)`
(src/intrusive_ptr.hpp 22-24): delegates to `set_ptr`. -/
def intrusive_ptr.mk_ptr (h : Heap) (raw_ptr : Ptr) (add_ref : Bool) :
    intrusive_ptr × Heap :=
  intrusive_ptr.set_ptr h raw_ptr add_ref

/-- The copy constructor `intrusive_ptr(const intrusive_ptr&)`
(src/intrusive_ptr.hpp 28-30): `set_ptr(other.get(), true)`. -/
def intrusive_ptr.copy (h : Heap) (other : intrusive_ptr) :
    intrusive_ptr × Heap :=
  intrusive_ptr.set_ptr h other.ptr_ true

/-- `intrusive_ptr::detach()` (src/intrusive_ptr.hpp 54-60): returns the
stored pointer and nulls the handle, touching no count.  Result:
(returned raw pointer, handle afterwards). -/
def intrusive_ptr.detach (p : intrusive_ptr) : Ptr × intrusive_ptr :=
  (p.ptr_, ⟨none⟩)

/-- The move constructor `intrusive_ptr(intrusive_ptr&&)`
(src/intrusive_ptr.hpp 26): `ptr_(other.detach())`.  Result:
(new handle, moved-from handle afterwards). -/
def intrusive_ptr.move (other : intrusive_ptr) :
    intrusive_ptr × intrusive_ptr :=
  let r := intrusive_ptr.detach other
  (⟨r.1⟩, r.2)

/-- The destructor `~intrusive_ptr()` (src/intrusive_ptr.hpp 48-52):
releases the strong reference when the stored pointer is non-null. -/
def intrusive_ptr.dtor (h : Heap) (p : intrusive_ptr) : Heap :=
  match p.ptr_ with
  | some a => intrusive_ptr_release h a
  | none => h

/-- `intrusive_ptr::reset(new_value, add_ref)` (src/intrusive_ptr.hpp
66-72): acquires the new target first via `set_ptr`, then releases the
previous target. -/
def intrusive_ptr.reset (h : Heap) (p : intrusive_ptr) (new_value : Ptr)
    (add_ref : Bool) : intrusive_ptr × Heap :=
  let old := p.ptr_
  let r := intrusive_ptr.set_ptr h new_value add_ref
  (r.1,
    match old with
    | some a => intrusive_ptr_release r.2 a
    | none => r.2)

/-- `intrusive_ptr::get()` (src/intrusive_ptr.hpp 74-76). -/
def intrusive_ptr.get (p : intrusive_ptr) : Ptr := p.ptr_

/-- `explicit operator bool()` (src/intrusive_ptr.hpp 86-88): whether the
stored pointer is non-null. -/
def intrusive_ptr.toBool (p : intrusive_ptr) : Bool := p.ptr_.isSome

/-- `intrusive_ptr::swap` (src/intrusive_ptr.hpp 90-92): exchanges the
stored pointers, touching no count. -/
def intrusive_ptr.swap (x y : intrusive_ptr) :
    intrusive_ptr × intrusive_ptr :=
  (⟨y.ptr_⟩, ⟨x.ptr_⟩)

/-- The copy-and-swap assignment `operator=(intrusive_ptr other)`
(src/intrusive_ptr.hpp 43-46): the by-value parameter copies the source
(incrementing), `swap` exchanges the pointers, and the temporary's
destructor releases the old target. -/
def intrusive_ptr.assign (h : Heap) (self other : intrusive_ptr) :
    intrusive_ptr × Heap :=
  let c := intrusive_ptr.copy h other
  let s := intrusive_ptr.swap self c.1
  (s.1, intrusive_ptr.dtor c.2 s.2)

/-- `operator==(intrusive_ptr, intrusive_ptr)` (src/intrusive_ptr.hpp
136-139): compares the underlying addresses. -/
def intrusive_ptr.eqPtr (x y : intrusive_ptr) : Bool := x.ptr_ == y.ptr_

/-- `intrusive_ptr::down_pointer_cast<C>()` (src/intrusive_ptr.hpp
94-97): `(ptr_) ? dynamic_cast<C*>(get()) : nullptr`, the raw result
being wrapped by the converting constructor with its default
`add_ref = true`.  `dynamic_cast` succeeds exactly when the target type
id is among the object's compatible type ids. -/
def intrusive_ptr.down_pointer_cast (h : Heap) (p : intrusive_ptr)
    (target : TypeId) : intrusive_ptr × Heap :=
  match p.ptr_ with
  | some a =>
      let raw : Ptr :=
        match getObj h a with
        | some o => if target ∈ o.compatible_with then some a else none
        | none => none
      intrusive_ptr.mk_ptr h raw true
  | none => intrusive_ptr.mk_ptr h none true

/-- `intrusive_ptr::up_pointer_cast<C>()` (src/intrusive_ptr.hpp
99-102): `(ptr_) ? static_cast<C*>(get()) : nullptr`, the raw result
being wrapped by the converting constructor with its default
`add_ref = true`.  `static_cast` never fails; the address is kept. -/
def intrusive_ptr.up_pointer_cast (h : Heap) (p : intrusive_ptr) :
    intrusive_ptr × Heap :=
  match p.ptr_ with
  | some a => intrusive_ptr.mk_ptr h (some a) true
  | none => intrusive_ptr.mk_ptr h none true

/-- The weak handle `weak_intrusive_ptr<T>`: holds the stored pointer
`ptr_` (src/weak_intrusive_ptr.hpp, line 130). -/
structure weak_intrusive_ptr where
  ptr_ : Ptr
deriving DecidableEq, Repr

/-- `weak_intrusive_ptr::set_ptr(raw_ptr, add_ref)`
(src/weak_intrusive_ptr.hpp 123-128): stores the pointer and, when it is
non-null and `add_ref` holds, increments the weak count. -/
def weak_intrusive_ptr.set_ptr (h : Heap) (raw_ptr : Ptr) (add_ref : Bool) :
    weak_intrusive_ptr × Heap :=
  (⟨raw_ptr⟩,
    match raw_ptr with
    | some a => if add_ref then intrusive_ptr_add_weak_ref h a else h
    | none => h)

/-- The constructor `weak_intrusive_ptr(pointer, bool add_ref = true)`
(src/weak_intrusive_ptr.hpp 28-30). -/
def weak_intrusive_ptr.mk_ptr (h : Heap) (raw_ptr : Ptr) (add_ref : Bool) :
    weak_intrusive_ptr × Heap :=
  weak_intrusive_ptr.set_ptr h raw_ptr add_ref

/-- The copy constructor (src/weak_intrusive_ptr.hpp 36-38). -/
def weak_intrusive_ptr.copy (h : Heap) (other : weak_intrusive_ptr) :
    weak_intrusive_ptr × Heap :=
  weak_intrusive_ptr.set_ptr h other.ptr_ true

/-- `weak_intrusive_ptr::detach()` (src/weak_intrusive_ptr.hpp 55-61). -/
def weak_intrusive_ptr.detach (w : weak_intrusive_ptr) :
    Ptr × weak_intrusive_ptr :=
  (w.ptr_, ⟨none⟩)

/-- The move constructor (src/weak_intrusive_ptr.hpp 32-34). -/
def weak_intrusive_ptr.move (other : weak_intrusive_ptr) :
    weak_intrusive_ptr × weak_intrusive_ptr :=
  let r := weak_intrusive_ptr.detach other
  (⟨r.1⟩, r.2)

/-- The destructor `~weak_intrusive_ptr()` (src/weak_intrusive_ptr.hpp
46-50): releases the weak reference when the stored pointer is
non-null. -/
def weak_intrusive_ptr.dtor (h : Heap) (w : weak_intrusive_ptr) : Heap :=
  match w.ptr_ with
  | some a => intrusive_ptr_release_weak h a
  | none => h

/-- `weak_intrusive_ptr::reset(new_value, add_ref)`
(src/weak_intrusive_ptr.hpp 67-73). -/
def weak_intrusive_ptr.reset (h : Heap) (w : weak_intrusive_ptr)
    (new_value : Ptr) (add_ref : Bool) : weak_intrusive_ptr × Heap :=
  let old := w.ptr_
  let r := weak_intrusive_ptr.set_ptr h new_value add_ref
  (r.1,
    match old with
    | some a => intrusive_ptr_release_weak r.2 a
    | none => r.2)

/-- `weak_intrusive_ptr::get()` (src/weak_intrusive_ptr.hpp 85-87). -/
def weak_intrusive_ptr.get (w : weak_intrusive_ptr) : Ptr := w.ptr_

/-- `explicit operator bool()` (src/weak_intrusive_ptr.hpp 101-103). -/
def weak_intrusive_ptr.toBool (w : weak_intrusive_ptr) : Bool :=
  w.ptr_.isSome

/-- `operator==(weak_intrusive_ptr, weak_intrusive_ptr)`
(src/weak_intrusive_ptr.hpp 133-136). -/
def weak_intrusive_ptr.eqPtr (x y : weak_intrusive_ptr) : Bool :=
  x.ptr_ == y.ptr_

/-- `weak_intrusive_ptr::lock()` (src/weak_intrusive_ptr.hpp 106-112):
null pointer or failed upgrade yields a null strong handle (the
`nullptr` return converts through `intrusive_ptr(nullptr, true)`, which
increments nothing); a successful upgrade yields `{ptr_, false}`, a
strong handle adopting the reference the upgrade already took. -/
def weak_intrusive_ptr.lock (h : Heap) (w : weak_intrusive_ptr) :
    intrusive_ptr × Heap :=
  match w.ptr_ with
  | none => (⟨none⟩, h)
  | some a =>
      let r := intrusive_ptr_upgrade_weak h a
      if r.1 then intrusive_ptr.mk_ptr r.2 (some a) false
      else (⟨none⟩, r.2)

/-- `weak_intrusive_ptr::get_locked()` (src/weak_intrusive_ptr.hpp
115-120): same protocol as `lock`, returning the raw pointer. -/
def weak_intrusive_ptr.get_locked (h : Heap) (w : weak_intrusive_ptr) :
    Ptr × Heap :=
  match w.ptr_ with
  | none => (none, h)
  | some a =>
      let r := intrusive_ptr_upgrade_weak h a
      if r.1 then (some a, r.2) else (none, r.2)

/-! ## Heap lemmas -/

theorem getObj_modifyObj_self (h : Heap) (a : Addr)
    (f : RefCounted → RefCounted) :
    getObj (modifyObj h a f) a = Option.map f (getObj h a) := by
  induction h with
  | nil => rfl
  | cons hd tl ih =>
      obtain ⟨b, o⟩ := hd
      by_cases hab : a = b
      · simp [modifyObj, getObj, hab]
      · simp [modifyObj, getObj, hab, ih]

theorem getObj_modifyObj_ne (h : Heap) (a b : Addr)
    (f : RefCounted → RefCounted) (hne : b ≠ a) :
    getObj (modifyObj h a f) b = getObj h b := by
  induction h with
  | nil => rfl
  | cons hd tl ih =>
      obtain ⟨c, o⟩ := hd
      by_cases hac : a = c
      · subst hac
        simp [modifyObj, getObj, hne, ih]
      · by_cases hbc : b = c
        · simp [modifyObj, getObj, hac, hbc]
        · simp [modifyObj, getObj, hac, hbc, ih]

/-- Shared helper: resetting a strong handle to its own live target with
`add_ref = true` leaves every object in the heap unchanged. -/
theorem reset_self_getObj (h : Heap) (a : Addr) (o : RefCounted)
    (hget : getObj h a = some o) (hsc : 1 ≤ o.strong_count) (b : Addr) :
    getObj (intrusive_ptr.reset h ⟨some a⟩ (some a) true).2 b = getObj h b := by
  simp only [intrusive_ptr.reset, intrusive_ptr.set_ptr,
    intrusive_ptr_add_ref, intrusive_ptr_release, if_true]
  by_cases hba : b = a
  · subst hba
    rw [getObj_modifyObj_self, getObj_modifyObj_self, hget]
    have hne : ¬ (o.strong_count + 1 - 1 = 0) := by omega
    simp only [Option.map_some', Nat.add_sub_cancel]
    rw [if_neg (by omega : ¬ o.strong_count = 0)]
  · rw [getObj_modifyObj_ne _ _ _ _ hba, getObj_modifyObj_ne _ _ _ _ hba]

/-- Shared helper: the effect of a strong release on the released
object's record. -/
theorem getObj_release_self (h : Heap) (a : Addr) (o : RefCounted)
    (hget : getObj h a = some o) :
    getObj (intrusive_ptr_release h a) a =
      some (if o.strong_count - 1 = 0 then
              runFinalizer { o with strong_count := o.strong_count - 1 }
            else { o with strong_count := o.strong_count - 1 }) := by
  simp only [intrusive_ptr_release]
  rw [getObj_modifyObj_self, hget]
  rfl

/-- Shared helper: a strong release leaves other addresses untouched. -/
theorem getObj_release_ne (h : Heap) (a b : Addr) (hba : b ≠ a) :
    getObj (intrusive_ptr_release h a) b = getObj h b := by
  simp only [intrusive_ptr_release]
  exact getObj_modifyObj_ne _ _ _ _ hba

/-- Shared helper: the effect of a strong acquire on the object's
record. -/
theorem getObj_add_ref_self (h : Heap) (a : Addr) (o : RefCounted)
    (hget : getObj h a = some o) :
    getObj (intrusive_ptr_add_ref h a) a =
      some { o with strong_count := o.strong_count + 1 } := by
  simp only [intrusive_ptr_add_ref]
  rw [getObj_modifyObj_self, hget]
  rfl

/-! ## Claim theorems -/

/-- C5: for an object created with strong_count = 1 owned by handle A,
the sequence copy A into B, create weak handle W, destroy A, destroy B,
W.lock(), destroy W produces exactly: strong 2, weak 1, strong 1 with
the object alive, strong 0 with the finalizer run exactly once, a null
lock result with no heap change, and weak 0 with storage reclaimed
exactly once. -/
theorem C5_lifecycle_scenario :
    let o0 : RefCounted := ⟨1, 0, false, 0, false, 0, []⟩
    let h0 : Heap := [(0, o0)]
    let A : intrusive_ptr := ⟨some 0⟩
    let rB := intrusive_ptr.copy h0 A
    let rW := weak_intrusive_ptr.mk_ptr rB.2 (some 0) true
    let h3 := intrusive_ptr.dtor rW.2 A
    let h4 := intrusive_ptr.dtor h3 rB.1
    let rL := weak_intrusive_ptr.lock h4 rW.1
    let h5 := weak_intrusive_ptr.dtor rL.2 rW.1
    rB.1 = ⟨some 0⟩ ∧
    getObj rB.2 0 = some ⟨2, 0, false, 0, false, 0, []⟩ ∧
    getObj rW.2 0 = some ⟨2, 1, false, 0, false, 0, []⟩ ∧
    getObj h3 0 = some ⟨1, 1, false, 0, false, 0, []⟩ ∧
    getObj h4 0 = some ⟨0, 1, true, 1, false, 0, []⟩ ∧
    rL.1 = ⟨none⟩ ∧ rL.2 = h4 ∧
    getObj h5 0 = some ⟨0, 0, true, 1, true, 1, []⟩ := by
  decide

/-- C3: for a non-null strong handle, `detach()` clears the handle to
null without any decrement, and reconstructing a handle over the
detached pointer with `add_ref = false` leaves the heap — in particular
the object's strong count — exactly as before the detach. -/
theorem C3_detach_roundtrip (h : Heap) (p : intrusive_ptr) (a : Addr)
    (hp : p.ptr_ = some a) :
    (intrusive_ptr.detach p).2 = ⟨none⟩ ∧
    (intrusive_ptr.detach p).1 = some a ∧
    intrusive_ptr.mk_ptr h (intrusive_ptr.detach p).1 false =
      (⟨some a⟩, h) := by
  refine ⟨rfl, hp, ?_⟩
  simp [intrusive_ptr.mk_ptr, intrusive_ptr.set_ptr, intrusive_ptr.detach, hp]

/-- Witness for C3 at a concrete input. -/
theorem C3_detach_roundtrip_witness :
    (intrusive_ptr.detach ⟨some 0⟩).2 = ⟨none⟩ ∧
    (intrusive_ptr.detach ⟨some 0⟩).1 = some 0 ∧
    intrusive_ptr.mk_ptr [(0, ⟨1, 0, false, 0, false, 0, []⟩)]
      (intrusive_ptr.detach ⟨some 0⟩).1 false =
      (⟨some 0⟩, [(0, ⟨1, 0, false, 0, false, 0, []⟩)]) :=
  C3_detach_roundtrip [(0, ⟨1, 0, false, 0, false, 0, []⟩)] ⟨some 0⟩ 0 rfl

/-- C10: destroying, copying, detaching, resetting, boolean-testing and
comparing a null strong or weak handle invokes no counting primitive and
leaves the heap unchanged. -/
theorem C10_null_handle_ops (h : Heap) :
    intrusive_ptr.dtor h ⟨none⟩ = h ∧
    intrusive_ptr.copy h ⟨none⟩ = (⟨none⟩, h) ∧
    intrusive_ptr.detach ⟨none⟩ = (none, ⟨none⟩) ∧
    intrusive_ptr.reset h ⟨none⟩ none true = (⟨none⟩, h) ∧
    intrusive_ptr.toBool ⟨none⟩ = false ∧
    intrusive_ptr.eqPtr ⟨none⟩ ⟨none⟩ = true ∧
    weak_intrusive_ptr.dtor h ⟨none⟩ = h ∧
    weak_intrusive_ptr.copy h ⟨none⟩ = (⟨none⟩, h) ∧
    weak_intrusive_ptr.detach ⟨none⟩ = (none, ⟨none⟩) ∧
    weak_intrusive_ptr.reset h ⟨none⟩ none true = (⟨none⟩, h) ∧
    weak_intrusive_ptr.toBool ⟨none⟩ = false ∧
    weak_intrusive_ptr.eqPtr ⟨none⟩ ⟨none⟩ = true :=
  ⟨rfl, rfl, rfl, rfl, rfl, rfl, rfl, rfl, rfl, rfl, rfl, rfl⟩

/-- C2: `lock()` returns a null strong handle immediately on a null
stored pointer (heap untouched); returns a null strong handle with no
reference adopted (heap untouched) when the strong count is already 0;
and on success returns a handle over the same pointer whose construction
with `add_ref = false` adds nothing beyond the single increment the
upgrade primitive performed. -/
theorem C2_lock_cases (h : Heap) (w : weak_intrusive_ptr) :
    (w.ptr_ = none → weak_intrusive_ptr.lock h w = (⟨none⟩, h)) ∧
    (∀ a o, w.ptr_ = some a → getObj h a = some o → o.strong_count = 0 →
      weak_intrusive_ptr.lock h w = (⟨none⟩, h)) ∧
    (∀ a o, w.ptr_ = some a → getObj h a = some o → 0 < o.strong_count →
      (weak_intrusive_ptr.lock h w).1 = ⟨some a⟩ ∧
      getObj (weak_intrusive_ptr.lock h w).2 a =
        some { o with strong_count := o.strong_count + 1 } ∧
      ∀ b, b ≠ a → getObj (weak_intrusive_ptr.lock h w).2 b = getObj h b) := by
  refine ⟨?_, ?_, ?_⟩
  · intro hw
    simp [weak_intrusive_ptr.lock, hw]
  · intro a o hw hget hsc
    simp [weak_intrusive_ptr.lock, intrusive_ptr_upgrade_weak, hw, hget, hsc]
  · intro a o hw hget hsc
    refine ⟨?_, ?_, ?_⟩
    · simp [weak_intrusive_ptr.lock, intrusive_ptr_upgrade_weak, hw, hget,
        hsc, intrusive_ptr.mk_ptr, intrusive_ptr.set_ptr]
    · simp only [weak_intrusive_ptr.lock, intrusive_ptr_upgrade_weak, hw,
        hget, hsc, if_pos, intrusive_ptr.mk_ptr, intrusive_ptr.set_ptr,
        Bool.false_eq_true, if_false]
      rw [getObj_modifyObj_self, hget]
      rfl
    · intro b hba
      simp only [weak_intrusive_ptr.lock, intrusive_ptr_upgrade_weak, hw,
        hget, hsc, if_pos, intrusive_ptr.mk_ptr, intrusive_ptr.set_ptr,
        Bool.false_eq_true, if_false]
      rw [getObj_modifyObj_ne _ _ _ _ hba]

/-- Witness for C2 at concrete inputs: all three cases. -/
theorem C2_lock_cases_witness :
    weak_intrusive_ptr.lock [] ⟨none⟩ = (⟨none⟩, []) ∧
    weak_intrusive_ptr.lock [(0, ⟨0, 1, true, 1, false, 0, []⟩)] ⟨some 0⟩ =
      (⟨none⟩, [(0, ⟨0, 1, true, 1, false, 0, []⟩)]) ∧
    (weak_intrusive_ptr.lock [(0, ⟨1, 1, false, 0, false, 0, []⟩)] ⟨some 0⟩).1 =
      ⟨some 0⟩ ∧
    getObj (weak_intrusive_ptr.lock
      [(0, ⟨1, 1, false, 0, false, 0, []⟩)] ⟨some 0⟩).2 0 =
      some ⟨2, 1, false, 0, false, 0, []⟩ := by
  refine ⟨(C2_lock_cases [] ⟨none⟩).1 rfl,
    (C2_lock_cases [(0, ⟨0, 1, true, 1, false, 0, []⟩)] ⟨some 0⟩).2.1
      0 ⟨0, 1, true, 1, false, 0, []⟩ rfl rfl rfl, ?_, ?_⟩
  · exact ((C2_lock_cases [(0, ⟨1, 1, false, 0, false, 0, []⟩)]
      ⟨some 0⟩).2.2 0 ⟨1, 1, false, 0, false, 0, []⟩ rfl rfl
      (by decide)).1
  · exact ((C2_lock_cases [(0, ⟨1, 1, false, 0, false, 0, []⟩)]
      ⟨some 0⟩).2.2 0 ⟨1, 1, false, 0, false, 0, []⟩ rfl rfl
      (by decide)).2.1

/-- C4: `reset(new, add_ref)` acquires the new target first and only
then releases the previous one; resetting a handle to its own live
target with `add_ref = true` keeps the count positive in between (the
intermediate state holds `strong_count + 1`) and leaves every object in
the heap, and hence the object's lifetime, unchanged. -/
theorem C4_reset_self_noop (h : Heap) (a : Addr) (o : RefCounted)
    (hget : getObj h a = some o) (hsc : 1 ≤ o.strong_count) :
    getObj (intrusive_ptr.set_ptr h (some a) true).2 a =
      some { o with strong_count := o.strong_count + 1 } ∧
    (intrusive_ptr.reset h ⟨some a⟩ (some a) true).2 =
      intrusive_ptr_release (intrusive_ptr.set_ptr h (some a) true).2 a ∧
    (intrusive_ptr.reset h ⟨some a⟩ (some a) true).1 = ⟨some a⟩ ∧
    ∀ b, getObj (intrusive_ptr.reset h ⟨some a⟩ (some a) true).2 b =
      getObj h b := by
  refine ⟨?_, rfl, rfl, reset_self_getObj h a o hget hsc⟩
  show getObj (intrusive_ptr_add_ref h a) a = _
  exact getObj_add_ref_self h a o hget

/-- Witness for C4 at a concrete input. -/
theorem C4_reset_self_noop_witness :
    getObj (intrusive_ptr.set_ptr [(0, ⟨1, 0, false, 0, false, 0, []⟩)]
        (some 0) true).2 0 = some ⟨2, 0, false, 0, false, 0, []⟩ ∧
    (intrusive_ptr.reset [(0, ⟨1, 0, false, 0, false, 0, []⟩)]
        ⟨some 0⟩ (some 0) true).1 = ⟨some 0⟩ ∧
    getObj (intrusive_ptr.reset [(0, ⟨1, 0, false, 0, false, 0, []⟩)]
        ⟨some 0⟩ (some 0) true).2 0 = some ⟨1, 0, false, 0, false, 0, []⟩ := by
  have h4 := C4_reset_self_noop [(0, ⟨1, 0, false, 0, false, 0, []⟩)] 0
    ⟨1, 0, false, 0, false, 0, []⟩ rfl (by decide)
  exact ⟨h4.1, h4.2.2.1, h4.2.2.2 0⟩

/-- C1: with the object's strong count at 1 and a live weak handle, the
race between `lock()` and the last strong release linearizes to exactly
two outcomes.  Lock first: the upgrade succeeds, the last strong release
does not finalize (the finalizer is deferred), and dropping the newly
produced strong handle finalizes exactly once.  Release first: the
release finalizes exactly once, the subsequent `lock()` returns null,
and no second finalization happens.  In both orders exactly one of the
two effects occurs. -/
theorem C1_upgrade_race_dichotomy (h : Heap) (a : Addr) (o : RefCounted)
    (hget : getObj h a = some o) (hsc : o.strong_count = 1)
    (_hwk : 1 ≤ o.weak_count) (hfr : o.finalizer_runs = 0) :
    ((weak_intrusive_ptr.lock h ⟨some a⟩).1 = ⟨some a⟩ ∧
     Option.map RefCounted.finalizer_runs
       (getObj (intrusive_ptr.dtor
         (weak_intrusive_ptr.lock h ⟨some a⟩).2 ⟨some a⟩) a) = some 0 ∧
     Option.map RefCounted.finalizer_runs
       (getObj (intrusive_ptr.dtor
         (intrusive_ptr.dtor (weak_intrusive_ptr.lock h ⟨some a⟩).2 ⟨some a⟩)
         (weak_intrusive_ptr.lock h ⟨some a⟩).1) a) = some 1) ∧
    (Option.map RefCounted.finalizer_runs
       (getObj (intrusive_ptr.dtor h ⟨some a⟩) a) = some 1 ∧
     (weak_intrusive_ptr.lock (intrusive_ptr.dtor h ⟨some a⟩) ⟨some a⟩).1 =
       ⟨none⟩ ∧
     Option.map RefCounted.finalizer_runs
       (getObj (weak_intrusive_ptr.lock
         (intrusive_ptr.dtor h ⟨some a⟩) ⟨some a⟩).2 a) = some 1) := by
  have hpos : 0 < o.strong_count := by omega
  have hlock : weak_intrusive_ptr.lock h ⟨some a⟩ =
      (⟨some a⟩, modifyObj h a
        fun o2 => { o2 with strong_count := o2.strong_count + 1 }) := by
    simp [weak_intrusive_ptr.lock, intrusive_ptr_upgrade_weak, hget, hpos,
      intrusive_ptr.mk_ptr, intrusive_ptr.set_ptr]
  have hget1 : getObj (weak_intrusive_ptr.lock h ⟨some a⟩).2 a =
      some { o with strong_count := o.strong_count + 1 } := by
    rw [hlock, getObj_modifyObj_self, hget]
    rfl
  have hdtor : ∀ hh : Heap,
      intrusive_ptr.dtor hh ⟨some a⟩ = intrusive_ptr_release hh a :=
    fun _ => rfl
  have hget2 : getObj (intrusive_ptr.dtor
      (weak_intrusive_ptr.lock h ⟨some a⟩).2 ⟨some a⟩) a =
      some { o with strong_count := o.strong_count } := by
    rw [hdtor, getObj_release_self _ _ _ hget1]
    simp [hsc]
  have hgetB : getObj (intrusive_ptr.dtor h ⟨some a⟩) a =
      some (runFinalizer { o with strong_count := 0 }) := by
    rw [hdtor, getObj_release_self _ _ _ hget]
    simp [hsc]
  refine ⟨⟨by rw [hlock], ?_, ?_⟩, ?_, ?_, ?_⟩
  · rw [hget2]
    simp [hfr]
  · have hfst : (weak_intrusive_ptr.lock h ⟨some a⟩).1 = ⟨some a⟩ := by
      rw [hlock]
    rw [hfst, hdtor, getObj_release_self _ _ _ hget2]
    simp [hsc, hfr, runFinalizer]
  · rw [hgetB]
    simp [hfr, runFinalizer]
  · simp [weak_intrusive_ptr.lock, intrusive_ptr_upgrade_weak, hgetB,
      runFinalizer]
  · simp only [weak_intrusive_ptr.lock, intrusive_ptr_upgrade_weak, hgetB]
    simp [runFinalizer, hgetB, hfr]

/-- Witness for C1 at a concrete input: object with strong count 1, weak
count 1; both linearization orders yield the stated outcome. -/
theorem C1_upgrade_race_dichotomy_witness :
    (weak_intrusive_ptr.lock [(0, ⟨1, 1, false, 0, false, 0, []⟩)]
      ⟨some 0⟩).1 = ⟨some 0⟩ ∧
    Option.map RefCounted.finalizer_runs
      (getObj (intrusive_ptr.dtor
        [(0, ⟨1, 1, false, 0, false, 0, []⟩)] ⟨some 0⟩) 0) = some 1 := by
  have h1 := C1_upgrade_race_dichotomy
    [(0, ⟨1, 1, false, 0, false, 0, []⟩)] 0
    ⟨1, 1, false, 0, false, 0, []⟩ rfl rfl (by decide) rfl
  exact ⟨h1.1.1, h1.2.1⟩

/-- C6 counterexample: upcasting a non-null strong handle does change
the object's strong count — `up_pointer_cast` wraps the raw result
through the converting constructor with its default `add_ref = true`,
so the count goes from 1 to 2. -/
theorem C6_up_cast_count_changes :
    getObj (intrusive_ptr.up_pointer_cast
        [(0, ⟨1, 0, false, 0, false, 0, []⟩)] ⟨some 0⟩).2 0 ≠
      getObj [((0 : Addr), (⟨1, 0, false, 0, false, 0, []⟩ : RefCounted))] 0 ∧
    Option.map RefCounted.strong_count
      (getObj (intrusive_ptr.up_pointer_cast
        [(0, ⟨1, 0, false, 0, false, 0, []⟩)] ⟨some 0⟩).2 0) = some 2 := by
  decide

/-- C6 amended: upcasting a non-null strong handle never fails, yields a
handle over the same underlying pointer, and increments the object's
strong count by exactly one (the new handle's own reference), leaving
every other object untouched. -/
theorem C6_up_cast_shares_pointer (h : Heap) (p : intrusive_ptr)
    (a : Addr) (o : RefCounted) (hp : p.ptr_ = some a)
    (hget : getObj h a = some o) :
    (intrusive_ptr.up_pointer_cast h p).1 = ⟨some a⟩ ∧
    getObj (intrusive_ptr.up_pointer_cast h p).2 a =
      some { o with strong_count := o.strong_count + 1 } ∧
    ∀ b, b ≠ a → getObj (intrusive_ptr.up_pointer_cast h p).2 b =
      getObj h b := by
  have hcast : intrusive_ptr.up_pointer_cast h p =
      (⟨some a⟩, intrusive_ptr_add_ref h a) := by
    simp [intrusive_ptr.up_pointer_cast, hp, intrusive_ptr.mk_ptr,
      intrusive_ptr.set_ptr]
  refine ⟨by rw [hcast], ?_, ?_⟩
  · rw [hcast]
    exact getObj_add_ref_self h a o hget
  · intro b hba
    rw [hcast]
    simp only [intrusive_ptr_add_ref]
    exact getObj_modifyObj_ne _ _ _ _ hba

/-- Witness for the amended C6 at a concrete input. -/
theorem C6_up_cast_shares_pointer_witness :
    (intrusive_ptr.up_pointer_cast
        [(0, ⟨1, 0, false, 0, false, 0, []⟩)] ⟨some 0⟩).1 = ⟨some 0⟩ ∧
    getObj (intrusive_ptr.up_pointer_cast
        [(0, ⟨1, 0, false, 0, false, 0, []⟩)] ⟨some 0⟩).2 0 =
      some ⟨2, 0, false, 0, false, 0, []⟩ := by
  have h6 := C6_up_cast_shares_pointer
    [(0, ⟨1, 0, false, 0, false, 0, []⟩)] ⟨some 0⟩ 0
    ⟨1, 0, false, 0, false, 0, []⟩ rfl rfl
  exact ⟨h6.1, h6.2.1⟩

/-- C7: downcasting a strong handle whose target's runtime type is
incompatible with the requested type returns a null handle (no error is
raised — the operation is total) and leaves the heap, hence every
reference count, exactly unchanged. -/
theorem C7_down_cast_incompatible (h : Heap) (p : intrusive_ptr)
    (a : Addr) (o : RefCounted) (target : TypeId) (hp : p.ptr_ = some a)
    (hget : getObj h a = some o) (hinc : target ∉ o.compatible_with) :
    intrusive_ptr.down_pointer_cast h p target = (⟨none⟩, h) := by
  simp [intrusive_ptr.down_pointer_cast, hp, hget, hinc,
    intrusive_ptr.mk_ptr, intrusive_ptr.set_ptr]

/-- Witness for C7 at a concrete input: object compatible only with type
id 5, downcast to type id 7. -/
theorem C7_down_cast_incompatible_witness :
    intrusive_ptr.down_pointer_cast
        [(0, ⟨1, 0, false, 0, false, 0, [5]⟩)] ⟨some 0⟩ 7 =
      (⟨none⟩, [(0, ⟨1, 0, false, 0, false, 0, [5]⟩)]) :=
  C7_down_cast_incompatible [(0, ⟨1, 0, false, 0, false, 0, [5]⟩)]
    ⟨some 0⟩ 0 ⟨1, 0, false, 0, false, 0, [5]⟩ 7 rfl rfl (by decide)

/-- C8: move construction transfers the stored pointer without any
counting primitive, nulls the moved-from handle, destroying the
moved-from handle performs no decrement, and destroying both handle
values after the move performs exactly the one decrement the original
handle owed. -/
theorem C8_move_transfers (h : Heap) (p : intrusive_ptr) (a : Addr)
    (hp : p.ptr_ = some a) :
    (intrusive_ptr.move p).1 = ⟨some a⟩ ∧
    (intrusive_ptr.move p).2 = ⟨none⟩ ∧
    intrusive_ptr.dtor h (intrusive_ptr.move p).2 = h ∧
    intrusive_ptr.dtor (intrusive_ptr.dtor h (intrusive_ptr.move p).2)
        (intrusive_ptr.move p).1 = intrusive_ptr_release h a := by
  refine ⟨?_, rfl, rfl, ?_⟩
  · simp [intrusive_ptr.move, intrusive_ptr.detach, hp]
  · simp [intrusive_ptr.move, intrusive_ptr.detach, intrusive_ptr.dtor, hp]

/-- Witness for C8 at a concrete input. -/
theorem C8_move_transfers_witness :
    (intrusive_ptr.move ⟨some 0⟩).1 = ⟨some 0⟩ ∧
    (intrusive_ptr.move ⟨some 0⟩).2 = ⟨none⟩ ∧
    intrusive_ptr.dtor [(0, ⟨2, 0, false, 0, false, 0, []⟩)]
        (intrusive_ptr.move ⟨some 0⟩).2 =
      [(0, ⟨2, 0, false, 0, false, 0, []⟩)] ∧
    intrusive_ptr.dtor
        (intrusive_ptr.dtor [(0, ⟨2, 0, false, 0, false, 0, []⟩)]
          (intrusive_ptr.move ⟨some 0⟩).2)
        (intrusive_ptr.move ⟨some 0⟩).1 =
      intrusive_ptr_release [(0, ⟨2, 0, false, 0, false, 0, []⟩)] 0 :=
  C8_move_transfers [(0, ⟨2, 0, false, 0, false, 0, []⟩)] ⟨some 0⟩ 0 rfl

/-- C9: the copy-and-swap assignment has exactly the same effect on the
stored pointer and on the heap as `reset(other.get(), true)`; in the
self-assignment case over a live object the new reference is acquired
before the old one is released (the intermediate count is
`strong_count + 1`) and every object's record is left unchanged, so the
count never transiently drops to zero. -/
theorem C9_assign_refines_reset (h : Heap) (self other : intrusive_ptr) :
    intrusive_ptr.assign h self other =
      intrusive_ptr.reset h self other.ptr_ true ∧
    (∀ a o, self.ptr_ = some a → other.ptr_ = some a →
      getObj h a = some o → 1 ≤ o.strong_count →
      Option.map RefCounted.strong_count
        (getObj (intrusive_ptr.copy h other).2 a) =
        some (o.strong_count + 1) ∧
      ∀ b, getObj (intrusive_ptr.assign h self other).2 b = getObj h b) := by
  constructor
  · rfl
  · intro a o hself hother hget hsc
    constructor
    · simp only [intrusive_ptr.copy, intrusive_ptr.set_ptr, hother]
      show Option.map RefCounted.strong_count
        (getObj (intrusive_ptr_add_ref h a) a) = _
      rw [getObj_add_ref_self h a o hget]
      rfl
    · intro b
      have hs : self = (⟨some a⟩ : intrusive_ptr) := by
        cases self
        simp_all
      have ho : other = (⟨some a⟩ : intrusive_ptr) := by
        cases other
        simp_all
      rw [hs, ho]
      show getObj (intrusive_ptr.reset h ⟨some a⟩ (some a) true).2 b = _
      exact reset_self_getObj h a o hget hsc b

/-- Witness for C9 at a concrete input: self-assignment over a live
object with strong count 1. -/
theorem C9_assign_refines_reset_witness :
    intrusive_ptr.assign [(0, ⟨1, 0, false, 0, false, 0, []⟩)]
        ⟨some 0⟩ ⟨some 0⟩ =
      intrusive_ptr.reset [(0, ⟨1, 0, false, 0, false, 0, []⟩)]
        ⟨some 0⟩ (some 0) true ∧
    Option.map RefCounted.strong_count
      (getObj (intrusive_ptr.copy [(0, ⟨1, 0, false, 0, false, 0, []⟩)]
        ⟨some 0⟩).2 0) = some 2 ∧
    getObj (intrusive_ptr.assign [(0, ⟨1, 0, false, 0, false, 0, []⟩)]
        ⟨some 0⟩ ⟨some 0⟩).2 0 = some ⟨1, 0, false, 0, false, 0, []⟩ := by
  have h9 := C9_assign_refines_reset [(0, ⟨1, 0, false, 0, false, 0, []⟩)]
    ⟨some 0⟩ ⟨some 0⟩
  have h9b := h9.2 0 ⟨1, 0, false, 0, false, 0, []⟩ rfl rfl rfl (by decide)
  exact ⟨h9.1, h9b.1, h9b.2 0⟩

end IntrusivePtrModel
